import Mathlib

/-!
Shallow embedding of the quality-gated multi-stage pipeline of the
Multi-Agent GitHub Repo Analysis Tool (files `src/agents.py`,
`src/workflow.py`, with snapshot shapes from `src/tools.py`).

Python strings are modelled as Lean `String`, Python dicts with a fixed key
set as structures (a key that may be absent becomes an `Option` field),
Python lists as Lean `List`.  A Python computation that may raise is
modelled in the `Py` monad (`Except String`), a `try/except Exception`
block as `pyTry`.  The injected capabilities (GitHub fetch, the LLM chains)
are modelled as arbitrary `Py`-valued functions, since the core treats them
as "input in, text out, may fail".
-/

/-- Python computations that can raise: the error carries `str(e)`. -/
abbrev Py (α : Type) := Except String α

/-- `try: body except Exception as e: handler e` — the handler may itself raise. -/
def pyTry {α : Type} (body : Py α) (handler : String → Py α) : Py α :=
  match body with
  | .ok a => .ok a
  | .error e => handler e

@[simp] theorem pyTry_ok {α : Type} (a : α) (h : String → Py α) :
    pyTry (.ok a) h = .ok a := rfl

@[simp] theorem pyTry_error {α : Type} (e : String) (h : String → Py α) :
    pyTry (.error e) h = h e := rfl

@[simp] theorem py_pure_eq {α : Type} (a : α) : (pure a : Py α) = .ok a := rfl

@[simp] theorem py_bind_ok {α β : Type} (a : α) (f : α → Py β) :
    ((.ok a : Py α) >>= f) = f a := rfl

@[simp] theorem py_bind_error {α β : Type} (e : String) (f : α → Py β) :
    ((.error e : Py α) >>= f) = .error e := rfl

/-! ### The approval heuristic (`"APPROVED" in review.upper()`)

`str.upper()` is modelled character-wise with `Char.toUpper` (exact on the
ASCII texts involved), and the Python substring operator `in` as contiguous
sublist containment on the character lists. -/

/-- Executable substring test: does `needle` occur contiguously in `hay`?
Models Python's `in` operator on strings. -/
def containsSub (needle : List Char) : List Char → Bool
  | [] => needle.isEmpty
  | c :: rest => needle.isPrefixOf (c :: rest) || containsSub needle rest

theorem containsSub_iff (n l : List Char) : containsSub n l = true ↔ n <:+: l := by
  induction l with
  | nil =>
    simp [containsSub, List.isEmpty_iff]
  | cons c rest ih =>
    simp [containsSub, List.infix_cons_iff, ih, List.isPrefixOf_iff_prefix]

/-- `agents.py` lines 212/287/321: `approved = "APPROVED" in review.upper()`. -/
def approvedHeuristic (review : String) : Bool :=
  containsSub "APPROVED".toList (review.toList.map Char.toUpper)

/-- Spec-side reading of "the literal text APPROVED occurs as a
case-insensitive substring of `t`": some contiguous run of characters of
`t` uppercases character-wise to `APPROVED`. -/
def OccursCaseInsensitive (pat t : String) : Prop :=
  ∃ w : List Char, w.map Char.toUpper = pat.toList ∧ w <:+: t.toList

/-! ### Data model -/

/-- A repository snapshot dict, as produced by `fetch_github_repos`
(`tools.py` lines 57–68, 73–79, 84–88) or synthesised by `fetcher_node`
(`agents.py` lines 197–201).  Fields the core never inspects (language,
stars, forks, url, timestamps) are carried as opaque optional strings and
numbers; a key that a given producer omits is `none`. -/
structure RepoSnapshot where
  name : Option String := none
  description : Option String := none
  language : Option String := none
  stars : Option Nat := none
  forks : Option Nat := none
  url : Option String := none
  created_at : Option String := none
  updated_at : Option String := none
  error : Option String := none
  files : List (String × String) := []
  total_files_processed : Option Nat := none
  deriving DecidableEq

/-- Python truthiness of `r.get("error")`: true exactly when the `error`
key is present with a non-empty string. -/
def RepoSnapshot.errTruthy (r : RepoSnapshot) : Bool :=
  match r.error with
  | none => false
  | some s => !s.isEmpty

/-- A quality-review dict (`review` / `approved` / `reviewer` keys); any
key may be absent, and the initial state uses the empty dict. -/
structure ReviewDict where
  review : Option String := none
  approved : Option Bool := none
  reviewer : Option String := none
  deriving DecidableEq

/-- The empty dict `{}` the initial state stores for each review field. -/
def emptyReview : ReviewDict := {}

/-- The LangGraph `AgentState` TypedDict (`agents.py` lines 21–31); inside
the workflow every key is present, because `run_analysis` populates all of
them in the initial state. -/
structure AgentState where
  username : String
  repos : String
  repos_data : List RepoSnapshot
  analyses : List String
  final_report : String
  data_quality_review : ReviewDict
  analysis_quality_review : ReviewDict
  final_quality_review : ReviewDict
  deriving DecidableEq

/-- A plain `dict` handed to `get_quality_summary` (`workflow.py` line 58):
any key may be absent, hence every field is optional. -/
structure ResultState where
  username : Option String := none
  repos : Option String := none
  repos_data : Option (List RepoSnapshot) := none
  analyses : Option (List String) := none
  final_report : Option String := none
  data_quality_review : Option ReviewDict := none
  analysis_quality_review : Option ReviewDict := none
  final_quality_review : Option ReviewDict := none
  deriving DecidableEq

/-- View a fully-populated workflow state as the result dict it is passed
around as (every key present). -/
def AgentState.toResult (s : AgentState) : ResultState :=
  { username := some s.username
    repos := some s.repos
    repos_data := some s.repos_data
    analyses := some s.analyses
    final_report := some s.final_report
    data_quality_review := some s.data_quality_review
    analysis_quality_review := some s.analysis_quality_review
    final_quality_review := some s.final_quality_review }

/-- The dict returned by `get_quality_summary` (`workflow.py` lines 78–85). -/
structure QualitySummary where
  overall_approved : Bool
  repositories_analyzed : Nat
  total_files_processed : Nat
  data_quality : ReviewDict
  analysis_quality : ReviewDict
  final_quality : ReviewDict
  deriving DecidableEq

/-- `workflow.py` lines 58–85, line by line: `.get(key, default)` becomes
`Option.getD`, the list comprehension a `filter`, the generator sum a
`map`/`sum`, and the chained `and` of the three `.get("approved", False)`
lookups a `Bool` conjunction. -/
def get_quality_summary (result : ResultState) : QualitySummary :=
  let data_quality := result.data_quality_review.getD emptyReview
  let analysis_quality := result.analysis_quality_review.getD emptyReview
  let final_quality := result.final_quality_review.getD emptyReview
  let repos_data := result.repos_data.getD []
  let repositories_analyzed := (repos_data.filter (fun r => !r.errTruthy)).length
  let total_files_processed := (repos_data.map (fun r => r.total_files_processed.getD 0)).sum
  let all_approved := data_quality.approved.getD false
      && analysis_quality.approved.getD false
      && final_quality.approved.getD false
  { overall_approved := all_approved
    repositories_analyzed := repositories_analyzed
    total_files_processed := total_files_processed
    data_quality := data_quality
    analysis_quality := analysis_quality
    final_quality := final_quality }

/-! ### Snapshot shapes produced by the fetch layer (`tools.py`, `agents.py`) -/

/-- `tools.py` lines 57–68: the dict built for a successfully traversed
repository (no `error` key; `total_files_processed` is the loop counter). -/
def toolsRepoData (name description : String) (language : Option String)
    (stars forks : Nat) (url created_at updated_at : String)
    (files : List (String × String)) (processed : Nat) : RepoSnapshot :=
  { name := some name, description := some description, language := language
    stars := some stars, forks := some forks, url := some url
    created_at := some created_at, updated_at := some updated_at
    error := none, files := files, total_files_processed := some processed }

/-- `tools.py` lines 73–79: the per-repository error dict. -/
def toolsAccessErrorData (name description e : String) : RepoSnapshot :=
  { name := some name, description := some description
    error := some ("Could not access repository: " ++ e)
    files := [], total_files_processed := some 0 }

/-- `tools.py` lines 84–88: the wholesale-failure dict. -/
def toolsFetchErrorData (username e : String) : RepoSnapshot :=
  { error := some ("Failed to fetch repositories for user " ++ username ++ ": " ++ e)
    files := [], total_files_processed := some 0 }

/-- `agents.py` lines 197–201: the synthetic snapshot `fetcher_node` writes
when the fetch capability raises. -/
def fetchErrorSnapshot (e : String) : RepoSnapshot :=
  { error := some ("Failed to fetch repository data: " ++ e)
    files := [], total_files_processed := some 0 }

/-- A snapshot is fetch-layer produced when it has one of the four shapes
the source can actually put into `repos_data`. -/
def FetcherProduced (r : RepoSnapshot) : Prop :=
  (∃ name description language stars forks url created_at updated_at files processed,
      r = toolsRepoData name description language stars forks url created_at updated_at files processed)
  ∨ (∃ name description e, r = toolsAccessErrorData name description e)
  ∨ (∃ username e, r = toolsFetchErrorData username e)
  ∨ (∃ e, r = fetchErrorSnapshot e)

/-! ### The injected capabilities

Each LLM chain / tool invocation is an external call that returns text or
raises; prompt templating is injective plumbing, so each capability takes
the data the stage serialises into its prompt. -/

structure Caps where
  fetchCap : String → String → Py (List RepoSnapshot)
  genDataReview : List RepoSnapshot → Py String
  vector_available : Bool
  embedCap : List (String × String) → Py Unit
  genAnalyze : RepoSnapshot → Py String
  genAnalysisReview : String → Py String
  genSynthesize : String → Py String
  genFinalReview : String → Py String

/-! ### Stage node functions (`agents.py` lines 188–335) -/

/-- `agents.py` lines 188–203 (`fetcher_node`). -/
def fetcher_node (C : Caps) (state : AgentState) : Py AgentState :=
  pyTry
    (do
      let repos_data ← C.fetchCap state.username state.repos
      pure { state with repos_data := repos_data })
    (fun e => pure { state with repos_data := [fetchErrorSnapshot e] })

/-- `agents.py` lines 205–226 (`data_quality_reviewer_node`). -/
def data_quality_reviewer_node (C : Caps) (state : AgentState) : Py AgentState :=
  pyTry
    (do
      let review ← C.genDataReview state.repos_data
      pure { state with data_quality_review :=
        { review := some review
          approved := some (approvedHeuristic review)
          reviewer := some "Data Quality Reviewer" } })
    (fun e =>
      pure { state with data_quality_review :=
        { review := some ("Error during data quality review: " ++ e)
          approved := some false
          reviewer := some "Data Quality Reviewer" } })

/-- `agents.py` lines 234–250: the optional vector-insight block, with its
own inner `try/except`.  `repo.get("files")` truthiness is non-emptiness
of the files dict; `docs` keeps files with non-empty string content. -/
def vectorInsight (C : Caps) (repo : RepoSnapshot) : Py String :=
  if C.vector_available && !repo.files.isEmpty then
    pyTry
      (do
        let docs := repo.files.filter (fun p => !p.2.isEmpty)
        if docs.isEmpty then
          pure ""
        else do
          let _ ← C.embedCap docs
          pure ("\n\nVector Analysis: Processed " ++ toString docs.length
            ++ " files for semantic analysis."))
      (fun _ => pure "\n\nVector Analysis: Not available for this repository.")
  else
    pure ""

/-- `agents.py` lines 257–268.  The guard at line 259 references
`os.getenv`, but `agents.py` never imports `os`, so evaluating it raises
`NameError`; the surrounding `try/except Exception: pass` absorbs it and
`cloud_insight` keeps its initial value `""` on every run. -/
def cloudInsight : Py String :=
  pyTry (.error "name os is not defined") (fun _ => pure "")

/-- One iteration of the analyzer loop (`agents.py` lines 232–274): the
whole body in a `try` whose handler appends the error-annotated string. -/
def analyzeRepo (C : Caps) (repo : RepoSnapshot) : Py String :=
  pyTry
    (do
      let vector_insight ← vectorInsight C repo
      let analysis ← C.genAnalyze repo
      let cloud_insight ← cloudInsight
      pure (analysis ++ vector_insight ++ cloud_insight))
    (fun e => pure ("Error analyzing repository " ++ repo.name.getD "unknown" ++ ": " ++ e))

/-- The analyzer's `for repo in state["repos_data"]` loop (`agents.py`
lines 230–274): starting from `analyses = []`, each iteration appends
exactly one string (the `try` body's result or the handler's). -/
def analyzeLoop (C : Caps) : List RepoSnapshot → Py (List String)
  | [] => pure []
  | repo :: rest => do
    let a ← analyzeRepo C repo
    let rest' ← analyzeLoop C rest
    pure (a :: rest')

/-- `agents.py` lines 228–277 (`analyzer_node`). -/
def analyzer_node (C : Caps) (state : AgentState) : Py AgentState := do
  let analyses ← analyzeLoop C state.repos_data
  pure { state with analyses := analyses }

/-- `agents.py` lines 279–301 (`analysis_quality_reviewer_node`);
`" ".join(state["analyses"])` is `String.intercalate " "`. -/
def analysis_quality_reviewer_node (C : Caps) (state : AgentState) : Py AgentState :=
  pyTry
    (do
      let review ← C.genAnalysisReview (String.intercalate " " state.analyses)
      pure { state with analysis_quality_review :=
        { review := some review
          approved := some (approvedHeuristic review)
          reviewer := some "Analysis Quality Reviewer" } })
    (fun e =>
      pure { state with analysis_quality_review :=
        { review := some ("Error during analysis quality review: " ++ e)
          approved := some false
          reviewer := some "Analysis Quality Reviewer" } })

/-- `agents.py` lines 303–312 (`synthesizer_node`). -/
def synthesizer_node (C : Caps) (state : AgentState) : Py AgentState :=
  pyTry
    (do
      let final_report ← C.genSynthesize (String.intercalate "\n\n" state.analyses)
      pure { state with final_report := final_report })
    (fun e => pure { state with final_report := "Error during synthesis: " ++ e })

/-- `agents.py` lines 314–335 (`final_quality_reviewer_node`). -/
def final_quality_reviewer_node (C : Caps) (state : AgentState) : Py AgentState :=
  pyTry
    (do
      let review ← C.genFinalReview state.final_report
      pure { state with final_quality_review :=
        { review := some review
          approved := some (approvedHeuristic review)
          reviewer := some "Final Quality Reviewer" } })
    (fun e =>
      pure { state with final_quality_review :=
        { review := some ("Error during final quality review: " ++ e)
          approved := some false
          reviewer := some "Final Quality Reviewer" } })

/-- `workflow.py` lines 43–52: the initial state of `run_analysis`. -/
def initial_state (username repos : String) : AgentState :=
  { username := username, repos := repos, repos_data := [], analyses := []
    final_report := "", data_quality_review := emptyReview
    analysis_quality_review := emptyReview, final_quality_review := emptyReview }

/-- `workflow.py` lines 16–56: the compiled graph runs the six nodes in the
fixed order fetcher → data review → analyzer → analysis review →
synthesizer → final review, threading the state forward. -/
def run_analysis (C : Caps) (username repos : String) : Py AgentState := do
  let s1 ← fetcher_node C (initial_state username repos)
  let s2 ← data_quality_reviewer_node C s1
  let s3 ← analyzer_node C s2
  let s4 ← analysis_quality_reviewer_node C s3
  let s5 ← synthesizer_node C s4
  final_quality_reviewer_node C s5

/-! ### Total characterisations of the stage nodes

Every handler in `agents.py` only builds a value, so each node is `.ok` of
a total function of the state and the capability outcomes.  These `F`
functions are proved equal to the nodes and make terminal states explicit. -/

def fetcherF (C : Caps) (s : AgentState) : AgentState :=
  { s with repos_data :=
    match C.fetchCap s.username s.repos with
    | .ok repos_data => repos_data
    | .error e => [fetchErrorSnapshot e] }

theorem fetcher_node_eq (C : Caps) (s : AgentState) :
    fetcher_node C s = .ok (fetcherF C s) := by
  unfold fetcher_node fetcherF
  cases h : C.fetchCap s.username s.repos <;> simp [h, pyTry, Bind.bind, Except.bind]

def dataReviewF (C : Caps) (s : AgentState) : AgentState :=
  { s with data_quality_review :=
    match C.genDataReview s.repos_data with
    | .ok review =>
        { review := some review
          approved := some (approvedHeuristic review)
          reviewer := some "Data Quality Reviewer" }
    | .error e =>
        { review := some ("Error during data quality review: " ++ e)
          approved := some false
          reviewer := some "Data Quality Reviewer" } }

theorem data_quality_reviewer_node_eq (C : Caps) (s : AgentState) :
    data_quality_reviewer_node C s = .ok (dataReviewF C s) := by
  unfold data_quality_reviewer_node dataReviewF
  cases h : C.genDataReview s.repos_data <;> simp [h, pyTry, Bind.bind, Except.bind]

def vectorInsightF (C : Caps) (repo : RepoSnapshot) : String :=
  if C.vector_available && !repo.files.isEmpty then
    let docs := repo.files.filter (fun p => !p.2.isEmpty)
    if docs.isEmpty then ""
    else
      match C.embedCap docs with
      | .ok _ => "\n\nVector Analysis: Processed " ++ toString docs.length
          ++ " files for semantic analysis."
      | .error _ => "\n\nVector Analysis: Not available for this repository."
  else ""

theorem vectorInsight_eq (C : Caps) (r : RepoSnapshot) :
    vectorInsight C r = .ok (vectorInsightF C r) := by
  unfold vectorInsight vectorInsightF
  by_cases hv : C.vector_available && !r.files.isEmpty
  · simp only [hv, if_true]
    by_cases hd : (r.files.filter (fun p => !p.2.isEmpty)).isEmpty
    · simp [hd, pyTry, Bind.bind, Except.bind]
    · cases h : C.embedCap (r.files.filter (fun p => !p.2.isEmpty)) <;>
        simp [hd, h, pyTry, Bind.bind, Except.bind]
  · simp [hv]

def analyzeRepoF (C : Caps) (repo : RepoSnapshot) : String :=
  match C.genAnalyze repo with
  | .ok analysis => analysis ++ vectorInsightF C repo ++ ""
  | .error e => "Error analyzing repository " ++ repo.name.getD "unknown" ++ ": " ++ e

theorem analyzeRepo_eq (C : Caps) (r : RepoSnapshot) :
    analyzeRepo C r = .ok (analyzeRepoF C r) := by
  unfold analyzeRepo analyzeRepoF
  rw [show (do
      let vector_insight ← vectorInsight C r
      let analysis ← C.genAnalyze r
      let cloud_insight ← cloudInsight
      pure (analysis ++ vector_insight ++ cloud_insight) : Py String) =
    (do
      let analysis ← C.genAnalyze r
      pure (analysis ++ vectorInsightF C r ++ "") : Py String) from by
    rw [vectorInsight_eq]
    cases h : C.genAnalyze r <;> simp [h, cloudInsight, pyTry, Bind.bind, Except.bind]]
  cases h : C.genAnalyze r <;> simp [h, pyTry, Bind.bind, Except.bind]

def analyzerF (C : Caps) (s : AgentState) : AgentState :=
  { s with analyses := s.repos_data.map (analyzeRepoF C) }

theorem analyzeLoop_eq (C : Caps) (l : List RepoSnapshot) :
    analyzeLoop C l = .ok (l.map (analyzeRepoF C)) := by
  induction l with
  | nil => rfl
  | cons r t ih => simp [analyzeLoop, analyzeRepo_eq, ih]

theorem analyzer_node_eq (C : Caps) (s : AgentState) :
    analyzer_node C s = .ok (analyzerF C s) := by
  unfold analyzer_node analyzerF
  simp [analyzeLoop_eq]

def analysisReviewF (C : Caps) (s : AgentState) : AgentState :=
  { s with analysis_quality_review :=
    match C.genAnalysisReview (String.intercalate " " s.analyses) with
    | .ok review =>
        { review := some review
          approved := some (approvedHeuristic review)
          reviewer := some "Analysis Quality Reviewer" }
    | .error e =>
        { review := some ("Error during analysis quality review: " ++ e)
          approved := some false
          reviewer := some "Analysis Quality Reviewer" } }

theorem analysis_quality_reviewer_node_eq (C : Caps) (s : AgentState) :
    analysis_quality_reviewer_node C s = .ok (analysisReviewF C s) := by
  unfold analysis_quality_reviewer_node analysisReviewF
  cases h : C.genAnalysisReview (String.intercalate " " s.analyses) <;>
    simp [h, pyTry, Bind.bind, Except.bind]

def synthesizerF (C : Caps) (s : AgentState) : AgentState :=
  { s with final_report :=
    match C.genSynthesize (String.intercalate "\n\n" s.analyses) with
    | .ok final_report => final_report
    | .error e => "Error during synthesis: " ++ e }

theorem synthesizer_node_eq (C : Caps) (s : AgentState) :
    synthesizer_node C s = .ok (synthesizerF C s) := by
  unfold synthesizer_node synthesizerF
  cases h : C.genSynthesize (String.intercalate "\n\n" s.analyses) <;>
    simp [h, pyTry, Bind.bind, Except.bind]

def finalReviewF (C : Caps) (s : AgentState) : AgentState :=
  { s with final_quality_review :=
    match C.genFinalReview s.final_report with
    | .ok review =>
        { review := some review
          approved := some (approvedHeuristic review)
          reviewer := some "Final Quality Reviewer" }
    | .error e =>
        { review := some ("Error during final quality review: " ++ e)
          approved := some false
          reviewer := some "Final Quality Reviewer" } }

theorem final_quality_reviewer_node_eq (C : Caps) (s : AgentState) :
    final_quality_reviewer_node C s = .ok (finalReviewF C s) := by
  unfold final_quality_reviewer_node finalReviewF
  cases h : C.genFinalReview s.final_report <;> simp [h, pyTry, Bind.bind, Except.bind]

/-- The terminal state of a run, as a total function of the capabilities. -/
def pipelineF (C : Caps) (username repos : String) : AgentState :=
  finalReviewF C (synthesizerF C (analysisReviewF C (analyzerF C
    (dataReviewF C (fetcherF C (initial_state username repos))))))

theorem run_analysis_eq (C : Caps) (username repos : String) :
    run_analysis C username repos = .ok (pipelineF C username repos) := by
  unfold run_analysis pipelineF
  simp [fetcher_node_eq, data_quality_reviewer_node_eq, analyzer_node_eq,
    analysis_quality_reviewer_node_eq, synthesizer_node_eq,
    final_quality_reviewer_node_eq, Bind.bind, Except.bind]

/-! ### Facts about fetch-layer snapshots -/

theorem append_isEmpty_false (a b : String) (h : a.length ≠ 0) :
    (a ++ b).isEmpty = false := by
  rw [Bool.eq_false_iff]
  intro hc
  have he := (String.isEmpty_iff _).mp hc
  have hl := congrArg String.length he
  simp only [String.length_append, show ("" : String).length = 0 from rfl] at hl
  exact h (by omega)

/-- Every snapshot the fetch layer can produce has either no `error` key or
a non-empty error string, and an errored one carries `total_files_processed = 0`.
In particular Python's `not r.get("error")` test agrees with "the `error`
field is absent" on all of them. -/
theorem fetcherProduced_facts (r : RepoSnapshot) (h : FetcherProduced r) :
    r.errTruthy = r.error.isSome ∧
      (r.error.isSome = true → r.total_files_processed = some 0) := by
  rcases h with ⟨n, d, lg, st, fk, u, c, up, fs, p, rfl⟩ | ⟨n, d, e, rfl⟩ |
    ⟨un, e, rfl⟩ | ⟨e, rfl⟩
  · exact ⟨rfl, by intro hc; simp [toolsRepoData] at hc⟩
  · refine ⟨?_, fun _ => rfl⟩
    simp [toolsAccessErrorData, RepoSnapshot.errTruthy,
      append_isEmpty_false "Could not access repository: " e (by decide)]
  · refine ⟨?_, fun _ => rfl⟩
    simp [toolsFetchErrorData, RepoSnapshot.errTruthy, String.append_assoc,
      append_isEmpty_false "Failed to fetch repositories for user " _ (by decide)]
  · refine ⟨?_, fun _ => rfl⟩
    simp [fetchErrorSnapshot, RepoSnapshot.errTruthy,
      append_isEmpty_false "Failed to fetch repository data: " e (by decide)]

/-! ### Frame facts: which state fields each stage touches -/

theorem fetcherF_frame (C : Caps) (s : AgentState) :
    (fetcherF C s).username = s.username ∧ (fetcherF C s).repos = s.repos ∧
    (fetcherF C s).analyses = s.analyses ∧ (fetcherF C s).final_report = s.final_report ∧
    (fetcherF C s).data_quality_review = s.data_quality_review ∧
    (fetcherF C s).analysis_quality_review = s.analysis_quality_review ∧
    (fetcherF C s).final_quality_review = s.final_quality_review :=
  ⟨rfl, rfl, rfl, rfl, rfl, rfl, rfl⟩

theorem dataReviewF_frame (C : Caps) (s : AgentState) :
    (dataReviewF C s).username = s.username ∧ (dataReviewF C s).repos = s.repos ∧
    (dataReviewF C s).repos_data = s.repos_data ∧ (dataReviewF C s).analyses = s.analyses ∧
    (dataReviewF C s).final_report = s.final_report ∧
    (dataReviewF C s).analysis_quality_review = s.analysis_quality_review ∧
    (dataReviewF C s).final_quality_review = s.final_quality_review :=
  ⟨rfl, rfl, rfl, rfl, rfl, rfl, rfl⟩

theorem analyzerF_frame (C : Caps) (s : AgentState) :
    (analyzerF C s).username = s.username ∧ (analyzerF C s).repos = s.repos ∧
    (analyzerF C s).repos_data = s.repos_data ∧
    (analyzerF C s).final_report = s.final_report ∧
    (analyzerF C s).data_quality_review = s.data_quality_review ∧
    (analyzerF C s).analysis_quality_review = s.analysis_quality_review ∧
    (analyzerF C s).final_quality_review = s.final_quality_review :=
  ⟨rfl, rfl, rfl, rfl, rfl, rfl, rfl⟩

theorem analysisReviewF_frame (C : Caps) (s : AgentState) :
    (analysisReviewF C s).username = s.username ∧ (analysisReviewF C s).repos = s.repos ∧
    (analysisReviewF C s).repos_data = s.repos_data ∧
    (analysisReviewF C s).analyses = s.analyses ∧
    (analysisReviewF C s).final_report = s.final_report ∧
    (analysisReviewF C s).data_quality_review = s.data_quality_review ∧
    (analysisReviewF C s).final_quality_review = s.final_quality_review :=
  ⟨rfl, rfl, rfl, rfl, rfl, rfl, rfl⟩

theorem synthesizerF_frame (C : Caps) (s : AgentState) :
    (synthesizerF C s).username = s.username ∧ (synthesizerF C s).repos = s.repos ∧
    (synthesizerF C s).repos_data = s.repos_data ∧
    (synthesizerF C s).analyses = s.analyses ∧
    (synthesizerF C s).data_quality_review = s.data_quality_review ∧
    (synthesizerF C s).analysis_quality_review = s.analysis_quality_review ∧
    (synthesizerF C s).final_quality_review = s.final_quality_review :=
  ⟨rfl, rfl, rfl, rfl, rfl, rfl, rfl⟩

theorem finalReviewF_frame (C : Caps) (s : AgentState) :
    (finalReviewF C s).username = s.username ∧ (finalReviewF C s).repos = s.repos ∧
    (finalReviewF C s).repos_data = s.repos_data ∧
    (finalReviewF C s).analyses = s.analyses ∧
    (finalReviewF C s).final_report = s.final_report ∧
    (finalReviewF C s).data_quality_review = s.data_quality_review ∧
    (finalReviewF C s).analysis_quality_review = s.analysis_quality_review :=
  ⟨rfl, rfl, rfl, rfl, rfl, rfl, rfl⟩

/-- The approval entry each review gate writes, as a function of the
capability outcome: the heuristic on success, `false` on failure. -/
def gateVerdict (res : Py String) : Bool :=
  match res with
  | .ok review => approvedHeuristic review
  | .error _ => false

theorem dataReviewF_gate (C : Caps) (s : AgentState) :
    (dataReviewF C s).data_quality_review.approved =
      some (gateVerdict (C.genDataReview s.repos_data)) := by
  unfold dataReviewF gateVerdict
  cases C.genDataReview s.repos_data <;> rfl

theorem analysisReviewF_gate (C : Caps) (s : AgentState) :
    (analysisReviewF C s).analysis_quality_review.approved =
      some (gateVerdict (C.genAnalysisReview (String.intercalate " " s.analyses))) := by
  unfold analysisReviewF gateVerdict
  cases C.genAnalysisReview (String.intercalate " " s.analyses) <;> rfl

theorem finalReviewF_gate (C : Caps) (s : AgentState) :
    (finalReviewF C s).final_quality_review.approved =
      some (gateVerdict (C.genFinalReview s.final_report)) := by
  unfold finalReviewF gateVerdict
  cases C.genFinalReview s.final_report <;> rfl

/-! ### The approval heuristic agrees with its case-insensitive reading -/

theorem approvedHeuristic_iff (t : String) :
    approvedHeuristic t = true ↔ OccursCaseInsensitive "APPROVED" t := by
  unfold approvedHeuristic OccursCaseInsensitive
  rw [containsSub_iff]
  constructor
  · rintro ⟨s₁, s₂, hs⟩
    rw [List.append_assoc] at hs
    obtain ⟨l₁, l₂, hl, _, h₂⟩ := List.append_eq_map_iff.mp hs
    obtain ⟨w, l₃, hw, hmap, _⟩ := List.append_eq_map_iff.mp h₂.symm
    exact ⟨w, hmap, l₁, l₃, by rw [hl, hw, List.append_assoc]⟩
  · rintro ⟨w, hw, hinf⟩
    have hm := hinf.map Char.toUpper
    rwa [hw] at hm

/-! ### Reading the summary off a fully-populated state -/

theorem summary_overall_toResult (s : AgentState) :
    (get_quality_summary s.toResult).overall_approved =
      (s.data_quality_review.approved.getD false
        && s.analysis_quality_review.approved.getD false
        && s.final_quality_review.approved.getD false) := rfl

theorem summary_repos_toResult (s : AgentState) :
    (get_quality_summary s.toResult).repositories_analyzed =
      (s.repos_data.filter (fun r => !r.errTruthy)).length := rfl

theorem summary_files_toResult (s : AgentState) :
    (get_quality_summary s.toResult).total_files_processed =
      (s.repos_data.map (fun r => r.total_files_processed.getD 0)).sum := rfl

/-! ### Concrete capability bundles used to witness the theorems -/

/-- Capabilities whose every text generation returns `t` and whose fetch
returns no snapshots. -/
def okCaps (t : String) : Caps :=
  { fetchCap := fun _ _ => .ok []
    genDataReview := fun _ => .ok t
    vector_available := false
    embedCap := fun _ => .ok ()
    genAnalyze := fun _ => .ok t
    genAnalysisReview := fun _ => .ok t
    genSynthesize := fun _ => .ok t
    genFinalReview := fun _ => .ok t }

/-- Capabilities that raise `e` on every call. -/
def failCaps (e : String) : Caps :=
  { fetchCap := fun _ _ => .error e
    genDataReview := fun _ => .error e
    vector_available := false
    embedCap := fun _ => .error e
    genAnalyze := fun _ => .error e
    genAnalysisReview := fun _ => .error e
    genSynthesize := fun _ => .error e
    genFinalReview := fun _ => .error e }

/-- Capabilities for the C9 scenario: everything succeeds except the
final-review generation call. -/
def mixedCaps : Caps :=
  { fetchCap := fun _ _ => .ok [toolsRepoData "r1" "" none 0 0 "u" "c" "t" [("a.py", "print")] 12]
    genDataReview := fun _ => .ok "APPROVED"
    vector_available := false
    embedCap := fun _ => .ok ()
    genAnalyze := fun _ => .ok "analysis text"
    genAnalysisReview := fun _ => .ok "APPROVED"
    genSynthesize := fun _ => .ok "the synthesized report"
    genFinalReview := fun _ => .error "llm down" }

/-! ### The claims -/

/-- C1: for every terminal pipeline state, each of the three gate records
carries a boolean `approved` entry, and the quality summary's
`overall_approved` flag is exactly the conjunction of the three; a single
disapproving gate forces `overall_approved = false` whatever the other two
say. -/
theorem C1_overall_approved_is_and_of_gates (C : Caps) (u rp : String) :
    ∃ s, run_analysis C u rp = .ok s ∧ ∃ b1 b2 b3 : Bool,
      s.data_quality_review.approved = some b1 ∧
      s.analysis_quality_review.approved = some b2 ∧
      s.final_quality_review.approved = some b3 ∧
      (get_quality_summary s.toResult).overall_approved = (b1 && b2 && b3) ∧
      ((b1 = false ∨ b2 = false ∨ b3 = false) →
        (get_quality_summary s.toResult).overall_approved = false) := by
  have hb1 : (pipelineF C u rp).data_quality_review.approved =
      some (gateVerdict (C.genDataReview (fetcherF C (initial_state u rp)).repos_data)) :=
    dataReviewF_gate C (fetcherF C (initial_state u rp))
  have hb2 : (pipelineF C u rp).analysis_quality_review.approved =
      some (gateVerdict (C.genAnalysisReview (String.intercalate " "
        (analyzerF C (dataReviewF C (fetcherF C (initial_state u rp)))).analyses))) :=
    analysisReviewF_gate C (analyzerF C (dataReviewF C (fetcherF C (initial_state u rp))))
  have hb3 : (pipelineF C u rp).final_quality_review.approved =
      some (gateVerdict (C.genFinalReview (synthesizerF C (analysisReviewF C
        (analyzerF C (dataReviewF C (fetcherF C (initial_state u rp)))))).final_report)) :=
    finalReviewF_gate C (synthesizerF C (analysisReviewF C
      (analyzerF C (dataReviewF C (fetcherF C (initial_state u rp))))))
  have hover : (get_quality_summary (pipelineF C u rp).toResult).overall_approved =
      (gateVerdict (C.genDataReview (fetcherF C (initial_state u rp)).repos_data)
        && gateVerdict (C.genAnalysisReview (String.intercalate " "
          (analyzerF C (dataReviewF C (fetcherF C (initial_state u rp)))).analyses))
        && gateVerdict (C.genFinalReview (synthesizerF C (analysisReviewF C
          (analyzerF C (dataReviewF C (fetcherF C (initial_state u rp)))))).final_report)) := by
    rw [summary_overall_toResult, hb1, hb2, hb3]
    rfl
  exact ⟨pipelineF C u rp, run_analysis_eq C u rp, _, _, _, hb1, hb2, hb3, hover, by
    intro h
    rcases h with h | h | h <;> simp [hover, h]⟩

/-- C7: on every input state and for every behaviour of the injected
capabilities (including all of them raising), each of the six stage
functions returns a state — no exception escapes a stage boundary. -/
theorem C7_stages_never_raise (C : Caps) (s : AgentState) :
    (∃ s', fetcher_node C s = .ok s') ∧
    (∃ s', data_quality_reviewer_node C s = .ok s') ∧
    (∃ s', analyzer_node C s = .ok s') ∧
    (∃ s', analysis_quality_reviewer_node C s = .ok s') ∧
    (∃ s', synthesizer_node C s = .ok s') ∧
    (∃ s', final_quality_reviewer_node C s = .ok s') :=
  ⟨⟨_, fetcher_node_eq C s⟩, ⟨_, data_quality_reviewer_node_eq C s⟩,
    ⟨_, analyzer_node_eq C s⟩, ⟨_, analysis_quality_reviewer_node_eq C s⟩,
    ⟨_, synthesizer_node_eq C s⟩, ⟨_, final_quality_reviewer_node_eq C s⟩⟩

/-- C5: when the fetch capability raises, `fetcher_node` stores exactly one
synthetic snapshot, with an `error` field and a zero
`total_files_processed`, so downstream consumers always see a well-formed
snapshot sequence. -/
theorem C5_fetch_failure_writes_synthetic_snapshot (C : Caps) (s : AgentState) (e : String)
    (h : C.fetchCap s.username s.repos = .error e) :
    fetcher_node C s = .ok { s with repos_data := [fetchErrorSnapshot e] } ∧
    [fetchErrorSnapshot e].length = 1 ∧
    (fetchErrorSnapshot e).error = some ("Failed to fetch repository data: " ++ e) ∧
    (fetchErrorSnapshot e).total_files_processed = some 0 := by
  refine ⟨?_, rfl, rfl, rfl⟩
  unfold fetcher_node
  simp [h]

theorem C5_witness :
    fetcher_node (failCaps "boom") (initial_state "u" "all") =
      .ok { initial_state "u" "all" with repos_data := [fetchErrorSnapshot "boom"] } ∧
    [fetchErrorSnapshot "boom"].length = 1 ∧
    (fetchErrorSnapshot "boom").error = some ("Failed to fetch repository data: " ++ "boom") ∧
    (fetchErrorSnapshot "boom").total_files_processed = some 0 :=
  C5_fetch_failure_writes_synthetic_snapshot (failCaps "boom") (initial_state "u" "all") "boom" rfl

/-- C6: the analyze stage always succeeds and produces one analysis per
snapshot, index-aligned: the output has the length of `repos_data` for any
input (empty included, all-failing generation included), and a snapshot
whose generation call raises gets the error-annotated string in its own
slot. -/
theorem C6_analyzer_index_aligned (C : Caps) (s : AgentState) :
    ∃ s', analyzer_node C s = .ok s' ∧
      s'.analyses.length = s.repos_data.length ∧
      s'.analyses = s.repos_data.map (analyzeRepoF C) ∧
      ∀ (i : Nat) (r : RepoSnapshot) (e : String),
        s.repos_data[i]? = some r → C.genAnalyze r = .error e →
        s'.analyses[i]? =
          some ("Error analyzing repository " ++ r.name.getD "unknown" ++ ": " ++ e) := by
  refine ⟨analyzerF C s, analyzer_node_eq C s, by simp [analyzerF], rfl, ?_⟩
  intro i r e hr he
  show (s.repos_data.map (analyzeRepoF C))[i]? = _
  rw [List.getElem?_map, hr]
  simp [analyzeRepoF, he]

/-- C8: a text-generation failure in any of the three review stages writes
that stage's gate with `approved = false` and the error description as the
review text — fail-closed, never `approved = true`. -/
theorem C8_review_failure_fail_closed (C : Caps) (s : AgentState) (e : String) :
    (C.genDataReview s.repos_data = .error e →
      data_quality_reviewer_node C s = .ok { s with data_quality_review :=
        { review := some ("Error during data quality review: " ++ e)
          approved := some false
          reviewer := some "Data Quality Reviewer" } }) ∧
    (C.genAnalysisReview (String.intercalate " " s.analyses) = .error e →
      analysis_quality_reviewer_node C s = .ok { s with analysis_quality_review :=
        { review := some ("Error during analysis quality review: " ++ e)
          approved := some false
          reviewer := some "Analysis Quality Reviewer" } }) ∧
    (C.genFinalReview s.final_report = .error e →
      final_quality_reviewer_node C s = .ok { s with final_quality_review :=
        { review := some ("Error during final quality review: " ++ e)
          approved := some false
          reviewer := some "Final Quality Reviewer" } }) := by
  refine ⟨fun h => ?_, fun h => ?_, fun h => ?_⟩
  · unfold data_quality_reviewer_node
    simp [h]
  · unfold analysis_quality_reviewer_node
    simp [h]
  · unfold final_quality_reviewer_node
    simp [h]

theorem C8_witness :
    data_quality_reviewer_node (failCaps "quota") (initial_state "u" "all") =
      .ok { initial_state "u" "all" with data_quality_review :=
        { review := some ("Error during data quality review: " ++ "quota")
          approved := some false
          reviewer := some "Data Quality Reviewer" } } :=
  (C8_review_failure_fail_closed (failCaps "quota") (initial_state "u" "all") "quota").1 rfl

/-- C2: every review stage derives `approved` from the returned review
text by the case-insensitive substring heuristic: `approved = some true`
exactly when `APPROVED` occurs case-insensitively in the text.  In
particular the text "this report is not APPROVED yet" is approved (the
documented false positive), and a text with no occurrence of the word in
any case is never approved. -/
theorem C2_approval_is_case_insensitive_substring :
    (∀ t : String, approvedHeuristic t = true ↔ OccursCaseInsensitive "APPROVED" t) ∧
    (∀ (C : Caps) (s : AgentState) (t : String), C.genDataReview s.repos_data = .ok t →
      ∃ s', data_quality_reviewer_node C s = .ok s' ∧
        (s'.data_quality_review.approved = some true ↔ OccursCaseInsensitive "APPROVED" t)) ∧
    (∀ (C : Caps) (s : AgentState) (t : String),
      C.genAnalysisReview (String.intercalate " " s.analyses) = .ok t →
      ∃ s', analysis_quality_reviewer_node C s = .ok s' ∧
        (s'.analysis_quality_review.approved = some true ↔ OccursCaseInsensitive "APPROVED" t)) ∧
    (∀ (C : Caps) (s : AgentState) (t : String), C.genFinalReview s.final_report = .ok t →
      ∃ s', final_quality_reviewer_node C s = .ok s' ∧
        (s'.final_quality_review.approved = some true ↔ OccursCaseInsensitive "APPROVED" t)) ∧
    approvedHeuristic "this report is not APPROVED yet" = true ∧
    (∀ t : String, ¬ OccursCaseInsensitive "APPROVED" t → approvedHeuristic t = false) := by
  refine ⟨approvedHeuristic_iff, ?_, ?_, ?_, by decide, ?_⟩
  · intro C s t h
    refine ⟨dataReviewF C s, data_quality_reviewer_node_eq C s, ?_⟩
    rw [dataReviewF_gate C s]
    simp only [gateVerdict, h, Option.some.injEq]
    exact approvedHeuristic_iff t
  · intro C s t h
    refine ⟨analysisReviewF C s, analysis_quality_reviewer_node_eq C s, ?_⟩
    rw [analysisReviewF_gate C s]
    simp only [gateVerdict, h, Option.some.injEq]
    exact approvedHeuristic_iff t
  · intro C s t h
    refine ⟨finalReviewF C s, final_quality_reviewer_node_eq C s, ?_⟩
    rw [finalReviewF_gate C s]
    simp only [gateVerdict, h, Option.some.injEq]
    exact approvedHeuristic_iff t
  · intro t hn
    cases hb : approvedHeuristic t with
    | false => rfl
    | true => exact absurd ((approvedHeuristic_iff t).mp hb) hn

theorem C2_witness :
    ∃ s', data_quality_reviewer_node (okCaps "Overall assessment: APPROVED, looks solid")
        (initial_state "u" "all") = .ok s' ∧
      (s'.data_quality_review.approved = some true ↔
        OccursCaseInsensitive "APPROVED" "Overall assessment: APPROVED, looks solid") :=
  C2_approval_is_case_insensitive_substring.2.1
    (okCaps "Overall assessment: APPROVED, looks solid") (initial_state "u" "all")
    "Overall assessment: APPROVED, looks solid" rfl

/-- Snapshots stored by the fetch stage are always fetch-layer shapes,
whenever the fetch capability itself only returns such shapes (as the
in-repo `fetch_github_repos` does). -/
theorem fetcherF_produced (C : Caps) (s : AgentState)
    (hwf : ∀ username repos l, C.fetchCap username repos = .ok l → ∀ r ∈ l, FetcherProduced r) :
    ∀ r ∈ (fetcherF C s).repos_data, FetcherProduced r := by
  unfold fetcherF
  cases hf : C.fetchCap s.username s.repos with
  | ok l =>
    intro r hr
    exact hwf _ _ l hf r (by simpa using hr)
  | error e =>
    intro r hr
    have hre : r = fetchErrorSnapshot e := by simpa using hr
    exact hre ▸ Or.inr (Or.inr (Or.inr ⟨e, rfl⟩))

/-- C3: in every terminal state of a run whose fetch capability returns
only snapshots of the shapes the fetch layer can build (all of whose error
strings are non-empty), `repositories_analyzed` counts exactly the
snapshots whose `error` field is absent, and an all-errored snapshot list
yields `repositories_analyzed = 0`. -/
theorem C3_repositories_analyzed_counts_errorless (C : Caps) (u rp : String) (s : AgentState)
    (hwf : ∀ username repos l, C.fetchCap username repos = .ok l → ∀ r ∈ l, FetcherProduced r)
    (hrun : run_analysis C u rp = .ok s) :
    (get_quality_summary s.toResult).repositories_analyzed =
      (s.repos_data.filter (fun r => r.error.isNone)).length ∧
    ((∀ r ∈ s.repos_data, r.error.isSome = true) →
      (get_quality_summary s.toResult).repositories_analyzed = 0) := by
  have hpipe := run_analysis_eq C u rp
  rw [hrun] at hpipe
  obtain rfl := Except.ok.inj hpipe
  have hall : ∀ r ∈ (pipelineF C u rp).repos_data, FetcherProduced r :=
    fetcherF_produced C (initial_state u rp) hwf
  constructor
  · rw [summary_repos_toResult]
    apply congrArg List.length
    apply List.filter_congr
    intro r hr
    have h1 := (fetcherProduced_facts r (hall r hr)).1
    rw [h1]
    cases r.error <;> rfl
  · intro hae
    rw [summary_repos_toResult]
    have hnil : (pipelineF C u rp).repos_data.filter (fun r => !r.errTruthy) = [] := by
      rw [List.filter_eq_nil_iff]
      intro r hr
      have h1 := (fetcherProduced_facts r (hall r hr)).1
      simp [h1, hae r hr]
    rw [hnil]
    rfl

theorem C3_witness :
    (get_quality_summary (pipelineF (failCaps "boom") "u" "all").toResult).repositories_analyzed =
      ((pipelineF (failCaps "boom") "u" "all").repos_data.filter
        (fun r => r.error.isNone)).length ∧
    ((∀ r ∈ (pipelineF (failCaps "boom") "u" "all").repos_data, r.error.isSome = true) →
      (get_quality_summary
        (pipelineF (failCaps "boom") "u" "all").toResult).repositories_analyzed = 0) :=
  C3_repositories_analyzed_counts_errorless (failCaps "boom") "u" "all"
    (pipelineF (failCaps "boom") "u" "all")
    (by intro username repos l hl; simp [failCaps] at hl)
    (run_analysis_eq (failCaps "boom") "u" "all")

/-- C4: in every terminal state (fetch capability returning fetch-layer
shapes), `total_files_processed` is the sum of the per-snapshot counts
over the whole snapshot list — errored snapshots are not excluded from the
sum; they carry count 0 and so contribute nothing. -/
theorem C4_total_files_sums_all_snapshots (C : Caps) (u rp : String) (s : AgentState)
    (hwf : ∀ username repos l, C.fetchCap username repos = .ok l → ∀ r ∈ l, FetcherProduced r)
    (hrun : run_analysis C u rp = .ok s) :
    (get_quality_summary s.toResult).total_files_processed =
      (s.repos_data.map (fun r => r.total_files_processed.getD 0)).sum ∧
    (∀ r ∈ s.repos_data, r.error.isSome = true → r.total_files_processed.getD 0 = 0) := by
  have hpipe := run_analysis_eq C u rp
  rw [hrun] at hpipe
  obtain rfl := Except.ok.inj hpipe
  have hall : ∀ r ∈ (pipelineF C u rp).repos_data, FetcherProduced r :=
    fetcherF_produced C (initial_state u rp) hwf
  refine ⟨summary_files_toResult _, ?_⟩
  intro r hr herr
  have h2 := (fetcherProduced_facts r (hall r hr)).2 herr
  rw [h2]
  rfl

theorem C4_witness :
    (get_quality_summary (pipelineF (failCaps "io") "u" "all").toResult).total_files_processed =
      ((pipelineF (failCaps "io") "u" "all").repos_data.map
        (fun r => r.total_files_processed.getD 0)).sum ∧
    (∀ r ∈ (pipelineF (failCaps "io") "u" "all").repos_data,
      r.error.isSome = true → r.total_files_processed.getD 0 = 0) :=
  C4_total_files_sums_all_snapshots (failCaps "io") "u" "all"
    (pipelineF (failCaps "io") "u" "all")
    (by intro username repos l hl; simp [failCaps] at hl)
    (run_analysis_eq (failCaps "io") "u" "all")

/-- C9: each stage leaves every field other than the one(s) it owns
unchanged (so a field, once written by its owning stage, is never mutated
by any later stage of the fixed pipeline order), and in the scenario where
synthesis succeeds but the final-review generation call raises, the
terminal state keeps the synthesizer's report in `final_report` while the
final gate is `approved = false` with the error description, making
`overall_approved` false. -/
theorem C9_stage_frames_and_final_review_failure :
    (∀ (C : Caps) (s s' : AgentState), fetcher_node C s = .ok s' →
      s'.username = s.username ∧ s'.repos = s.repos ∧ s'.analyses = s.analyses ∧
      s'.final_report = s.final_report ∧ s'.data_quality_review = s.data_quality_review ∧
      s'.analysis_quality_review = s.analysis_quality_review ∧
      s'.final_quality_review = s.final_quality_review) ∧
    (∀ (C : Caps) (s s' : AgentState), data_quality_reviewer_node C s = .ok s' →
      s'.username = s.username ∧ s'.repos = s.repos ∧ s'.repos_data = s.repos_data ∧
      s'.analyses = s.analyses ∧ s'.final_report = s.final_report ∧
      s'.analysis_quality_review = s.analysis_quality_review ∧
      s'.final_quality_review = s.final_quality_review) ∧
    (∀ (C : Caps) (s s' : AgentState), analyzer_node C s = .ok s' →
      s'.username = s.username ∧ s'.repos = s.repos ∧ s'.repos_data = s.repos_data ∧
      s'.final_report = s.final_report ∧ s'.data_quality_review = s.data_quality_review ∧
      s'.analysis_quality_review = s.analysis_quality_review ∧
      s'.final_quality_review = s.final_quality_review) ∧
    (∀ (C : Caps) (s s' : AgentState), analysis_quality_reviewer_node C s = .ok s' →
      s'.username = s.username ∧ s'.repos = s.repos ∧ s'.repos_data = s.repos_data ∧
      s'.analyses = s.analyses ∧ s'.final_report = s.final_report ∧
      s'.data_quality_review = s.data_quality_review ∧
      s'.final_quality_review = s.final_quality_review) ∧
    (∀ (C : Caps) (s s' : AgentState), synthesizer_node C s = .ok s' →
      s'.username = s.username ∧ s'.repos = s.repos ∧ s'.repos_data = s.repos_data ∧
      s'.analyses = s.analyses ∧ s'.data_quality_review = s.data_quality_review ∧
      s'.analysis_quality_review = s.analysis_quality_review ∧
      s'.final_quality_review = s.final_quality_review) ∧
    (∀ (C : Caps) (s s' : AgentState), final_quality_reviewer_node C s = .ok s' →
      s'.username = s.username ∧ s'.repos = s.repos ∧ s'.repos_data = s.repos_data ∧
      s'.analyses = s.analyses ∧ s'.final_report = s.final_report ∧
      s'.data_quality_review = s.data_quality_review ∧
      s'.analysis_quality_review = s.analysis_quality_review) ∧
    (∀ (C : Caps) (u rp : String) (s : AgentState) (R e : String),
      run_analysis C u rp = .ok s →
      C.genSynthesize (String.intercalate "\n\n" s.analyses) = .ok R →
      C.genFinalReview R = .error e →
      s.final_report = R ∧
      s.final_quality_review =
        { review := some ("Error during final quality review: " ++ e)
          approved := some false
          reviewer := some "Final Quality Reviewer" } ∧
      (get_quality_summary s.toResult).overall_approved = false) := by
  refine ⟨?_, ?_, ?_, ?_, ?_, ?_, ?_⟩
  · intro C s s' h
    rw [fetcher_node_eq C s] at h
    obtain rfl := Except.ok.inj h
    exact fetcherF_frame C s
  · intro C s s' h
    rw [data_quality_reviewer_node_eq C s] at h
    obtain rfl := Except.ok.inj h
    exact dataReviewF_frame C s
  · intro C s s' h
    rw [analyzer_node_eq C s] at h
    obtain rfl := Except.ok.inj h
    exact analyzerF_frame C s
  · intro C s s' h
    rw [analysis_quality_reviewer_node_eq C s] at h
    obtain rfl := Except.ok.inj h
    exact analysisReviewF_frame C s
  · intro C s s' h
    rw [synthesizer_node_eq C s] at h
    obtain rfl := Except.ok.inj h
    exact synthesizerF_frame C s
  · intro C s s' h
    rw [final_quality_reviewer_node_eq C s] at h
    obtain rfl := Except.ok.inj h
    exact finalReviewF_frame C s
  · intro C u rp s R e hrun h2 h3
    have hpipe := run_analysis_eq C u rp
    rw [hrun] at hpipe
    obtain rfl := Except.ok.inj hpipe
    have h2' : C.genSynthesize (String.intercalate "\n\n"
        (analysisReviewF C (analyzerF C (dataReviewF C
          (fetcherF C (initial_state u rp))))).analyses) = .ok R := h2
    have hfr5 : (synthesizerF C (analysisReviewF C (analyzerF C (dataReviewF C
        (fetcherF C (initial_state u rp)))))).final_report = R := by
      simp only [synthesizerF, h2']
    have hgate : (pipelineF C u rp).final_quality_review =
        { review := some ("Error during final quality review: " ++ e)
          approved := some false
          reviewer := some "Final Quality Reviewer" } := by
      show (finalReviewF C (synthesizerF C (analysisReviewF C (analyzerF C (dataReviewF C
        (fetcherF C (initial_state u rp))))))).final_quality_review = _
      simp only [finalReviewF, hfr5, h3]
    refine ⟨hfr5, hgate, ?_⟩
    rw [summary_overall_toResult, hgate]
    simp

theorem C9_witness :
    (pipelineF mixedCaps "u" "all").final_report = "the synthesized report" ∧
    (pipelineF mixedCaps "u" "all").final_quality_review =
      { review := some ("Error during final quality review: " ++ "llm down")
        approved := some false
        reviewer := some "Final Quality Reviewer" } ∧
    (get_quality_summary (pipelineF mixedCaps "u" "all").toResult).overall_approved = false :=
  C9_stage_frames_and_final_review_failure.2.2.2.2.2.2 mixedCaps "u" "all"
    (pipelineF mixedCaps "u" "all") "the synthesized report" "llm down"
    (run_analysis_eq mixedCaps "u" "all") rfl rfl

/-- C10: `get_quality_summary` is total on any result dict: a missing gate
dict, or a gate dict without an `approved` entry, is treated as
disapproved (forcing `overall_approved = false`), and a missing snapshot
list yields zero counts rather than a failure. -/
theorem C10_summary_total_on_partial_dicts (res : ResultState) :
    ((res.data_quality_review = none ∨
        ∃ d, res.data_quality_review = some d ∧ d.approved = none) →
      (get_quality_summary res).overall_approved = false) ∧
    ((res.analysis_quality_review = none ∨
        ∃ d, res.analysis_quality_review = some d ∧ d.approved = none) →
      (get_quality_summary res).overall_approved = false) ∧
    ((res.final_quality_review = none ∨
        ∃ d, res.final_quality_review = some d ∧ d.approved = none) →
      (get_quality_summary res).overall_approved = false) ∧
    (res.repos_data = none →
      (get_quality_summary res).repositories_analyzed = 0 ∧
      (get_quality_summary res).total_files_processed = 0) := by
  refine ⟨?_, ?_, ?_, ?_⟩
  · rintro (h | ⟨d, hd, ha⟩)
    · simp [get_quality_summary, h, emptyReview]
    · simp [get_quality_summary, hd, ha]
  · rintro (h | ⟨d, hd, ha⟩)
    · simp [get_quality_summary, h, emptyReview]
    · simp [get_quality_summary, hd, ha]
  · rintro (h | ⟨d, hd, ha⟩)
    · simp [get_quality_summary, h, emptyReview]
    · simp [get_quality_summary, hd, ha]
  · intro h
    exact ⟨by simp [get_quality_summary, h], by simp [get_quality_summary, h]⟩

theorem C10_witness :
    (get_quality_summary {}).overall_approved = false ∧
    (get_quality_summary {}).repositories_analyzed = 0 ∧
    (get_quality_summary {}).total_files_processed = 0 :=
  ⟨(C10_summary_total_on_partial_dicts {}).1 (Or.inl rfl),
    ((C10_summary_total_on_partial_dicts {}).2.2.2 rfl).1,
    ((C10_summary_total_on_partial_dicts {}).2.2.2 rfl).2⟩

theorem C1_witness :
    ∃ s, run_analysis (okCaps "APPROVED") "u" "all" = .ok s ∧ ∃ b1 b2 b3 : Bool,
      s.data_quality_review.approved = some b1 ∧
      s.analysis_quality_review.approved = some b2 ∧
      s.final_quality_review.approved = some b3 ∧
      (get_quality_summary s.toResult).overall_approved = (b1 && b2 && b3) ∧
      ((b1 = false ∨ b2 = false ∨ b3 = false) →
        (get_quality_summary s.toResult).overall_approved = false) :=
  C1_overall_approved_is_and_of_gates (okCaps "APPROVED") "u" "all"

theorem C6_witness :
    ∃ s', analyzer_node (failCaps "down")
        { initial_state "u" "all" with repos_data := [fetchErrorSnapshot "x"] } = .ok s' ∧
      s'.analyses.length =
        ({ initial_state "u" "all" with
            repos_data := [fetchErrorSnapshot "x"] } : AgentState).repos_data.length ∧
      s'.analyses =
        ({ initial_state "u" "all" with
            repos_data := [fetchErrorSnapshot "x"] } : AgentState).repos_data.map
          (analyzeRepoF (failCaps "down")) ∧
      ∀ (i : Nat) (r : RepoSnapshot) (e : String),
        ({ initial_state "u" "all" with
            repos_data := [fetchErrorSnapshot "x"] } : AgentState).repos_data[i]? = some r →
        (failCaps "down").genAnalyze r = .error e →
        s'.analyses[i]? =
          some ("Error analyzing repository " ++ r.name.getD "unknown" ++ ": " ++ e) :=
  C6_analyzer_index_aligned (failCaps "down")
    { initial_state "u" "all" with repos_data := [fetchErrorSnapshot "x"] }

theorem C7_witness :
    (∃ s', fetcher_node (failCaps "net") (initial_state "u" "all") = .ok s') ∧
    (∃ s', data_quality_reviewer_node (failCaps "net") (initial_state "u" "all") = .ok s') ∧
    (∃ s', analyzer_node (failCaps "net") (initial_state "u" "all") = .ok s') ∧
    (∃ s', analysis_quality_reviewer_node (failCaps "net") (initial_state "u" "all") = .ok s') ∧
    (∃ s', synthesizer_node (failCaps "net") (initial_state "u" "all") = .ok s') ∧
    (∃ s', final_quality_reviewer_node (failCaps "net") (initial_state "u" "all") = .ok s') :=
  C7_stages_never_raise (failCaps "net") (initial_state "u" "all")
